import Mathlib

set_option maxHeartbeats 1000000

/-!
Shallow embedding of the CustomFetch HTTP client (src/src/types.ts).

JS strings are Lean `String`s; JS runtime values are `JSValue`; the external
collaborators (transport, JSON codec, percent-encoding codec, base64 codec,
clocks, request-id generator) are fields of an `Env` record.  The engine
`CustomFetch` is a pure function from `Env` and `FetchOpts` to an `EngineOut`
containing the call's result (`Except JsError FetchResult`, where `.error`
means an uncaught exception escaped to the caller), the final cache state, and
an event trace recording transport dispatches, backoff sleeps, and
response-interceptor invocations.
-/

/-- JS runtime values (results of JSON parsing, error payloads, ...). -/
inductive JSValue where
  | null
  | undefined
  | bool (b : Bool)
  | num (n : Int)
  | str (s : String)
  | arr (xs : List JSValue)
  | obj (fields : List (String × JSValue))

/-- JS property access `v.k`: `undefined` when absent or on a non-object. -/
def JSValue.getField : JSValue → String → JSValue
  | .obj fs, k =>
    match fs.find? (fun p => p.1 == k) with
    | some p => p.2
    | none => .undefined
  | _, _ => .undefined

/-- Fields contributed by a JS object spread `{...v}`: an object's own fields,
an array's indexed elements, nothing for primitives. -/
def JSValue.spreadFields : JSValue → List (String × JSValue)
  | .obj fs => fs
  | .arr xs => xs.enum.map (fun p => (toString p.1, p.2))
  | _ => []

/-- JS object property assignment semantics on an association list: replacing
an existing key keeps its position, a new key is appended. -/
def alSet {α : Type} (fs : List (String × α)) (k : String) (v : α) : List (String × α) :=
  if fs.any (fun p => p.1 == k) then
    fs.map (fun p => if p.1 == k then (p.1, v) else p)
  else fs ++ [(k, v)]

/-- The `rawError.message ?? "Unknown error"` default of the error path. -/
def defaultedMessage (raw : JSValue) : JSValue :=
  match raw.getField "message" with
  | .null => .str "Unknown error"
  | .undefined => .str "Unknown error"
  | v => v

/-- `typeof rawError === "string" ? { message: rawError } :
\x7b ...rawError, message: rawError.message ?? "Unknown error" \x7d`. -/
def mkErrorData (raw : JSValue) : JSValue :=
  match raw with
  | .str s => .obj [("message", .str s)]
  | _ => .obj (alSet raw.spreadFields "message" (defaultedMessage raw))

/-- JS `String.prototype.includes`. -/
def strIncludes (s sub : String) : Bool :=
  (List.range (s.length + 1)).any (fun i => sub.toList.isPrefixOf (s.toList.drop i))

/-- `contentType?.includes(sub)` with optional chaining. -/
def optIncludes (ct : Option String) (sub : String) : Bool :=
  match ct with
  | some s => strIncludes s sub
  | none => false

/-- A query-parameter value: scalar (already stringified by `String(value)`),
a list of scalars, or null/undefined. -/
inductive ParamVal where
  | scalar (v : String)
  | list (xs : List String)
  | null

/-- `serializeParams` from the source, with the percent-encoding codec `enc`
as an external collaborator: null/undefined values are skipped, arrays emit
one `key=value` pair per element in order, parts are joined with `&`. -/
def serializeParams (enc : String → String) (params : List (String × ParamVal)) : String :=
  let parts := params.flatMap (fun kv =>
    match kv.2 with
    | .null => []
    | .scalar v => [enc kv.1 ++ "=" ++ enc v]
    | .list xs => xs.map (fun x => enc kv.1 ++ "=" ++ enc x))
  String.intercalate "&" parts

/-- `buildUrl` from the source: an absent or empty parameter map returns the
base URL unchanged, otherwise the query string is appended using `?` if the
base has none, `&` otherwise. -/
def buildUrl (enc : String → String) (baseUrl : String)
    (params : Option (List (String × ParamVal))) : String :=
  match params with
  | none => baseUrl
  | some ps =>
    if ps.isEmpty then baseUrl
    else baseUrl ++ (if strIncludes baseUrl "?" then "&" else "?") ++ serializeParams enc ps

/-- The fixed BINARY_PREFIXES table from the source. -/
def BINARY_PREFIXES : List String :=
  ["image/", "audio/", "video/", "font/", "application/octet-stream",
   "application/pdf", "application/zip", "application/x-zip", "application/x-rar",
   "application/x-tar", "application/x-bzip", "application/x-gzip",
   "application/java-archive", "application/vnd.ms-", "application/vnd.openxmlformats-"]

/-- `isBinaryContentType` from the source. -/
def isBinaryContentType (contentType : String) : Bool :=
  if contentType == "" then false
  else BINARY_PREFIXES.any (fun p => p.isPrefixOf contentType)

/-- The settled transport response object (`Response` of the fetch
collaborator), with its body available both as text and as bytes. -/
structure TransportResponse where
  status : Nat
  ok : Bool
  contentType : Option String
  bodyText : String
  bodyBytes : List Nat
  headerList : List (String × String)
  setCookies : List String

/-- `parseResponseBody` from the source; `jsonParse` is the JSON codec
collaborator (`none` models a parse failure / thrown SyntaxError). -/
def parseResponseBody (jsonParse : String → Option JSValue) (resp : TransportResponse) : JSValue :=
  let text := resp.bodyText
  if optIncludes resp.contentType "application/json" then
    match jsonParse text with
    | some v => v
    | none => .str text
  else if optIncludes resp.contentType "text/" || optIncludes resp.contentType "application/xml" then
    .str text
  else
    match jsonParse text with
    | some v => v
    | none => .str text

/-- Request body: a JS string or some other (non-string, truthy) BodyInit. -/
inductive BodyVal where
  | str (s : String)
  | blob

/-- `Headers.set`: case-insensitive key replacement, append when absent. -/
def hset (hs : List (String × String)) (k v : String) : List (String × String) :=
  if hs.any (fun p => p.1.toLower == k.toLower) then
    hs.map (fun p => if p.1.toLower == k.toLower then (p.1, v) else p)
  else hs ++ [(k, v)]

/-- `Headers.has`, case-insensitive. -/
def hhas (hs : List (String × String)) (k : String) : Bool :=
  hs.any (fun p => p.1.toLower == k.toLower)

/-- The RequestContext handed to the request interceptor and used for
dispatch and the cache key. -/
structure RequestContext where
  url : String
  method : String
  headers : List (String × String)
  body : Option BodyVal
  requestId : String

/-- A collected response-header value (plain or folded set-cookie list). -/
inductive HVal where
  | one (s : String)
  | many (xs : List String)

/-- The response-header collection of the success path: `forEach` into an
object, then fold multi-valued `set-cookie` into a list when non-empty. -/
def collectHeaders (resp : TransportResponse) : List (String × HVal) :=
  let base := resp.headerList.foldl (fun acc p => alSet acc p.1 (HVal.one p.2)) []
  if resp.setCookies.isEmpty then base
  else alSet base "set-cookie" (HVal.many resp.setCookies)

/-- SuccessResponse shape. -/
structure SuccessR where
  response : JSValue
  code : Nat
  createdAt : Int
  headers : List (String × HVal)
  requestId : String
  durationMs : Nat

/-- ErrorResponse shape (`code = none` models JS `null`; `stack` present only
in dev builds). -/
structure ErrorR where
  errors : JSValue
  code : Option Nat
  createdAt : Int
  requestId : String
  durationMs : Nat
  stack : Option String

/-- CustomFetchResult: the discriminated Success/Failure union. -/
inductive FetchResult where
  | success (s : SuccessR)
  | failure (e : ErrorR)

/-- The `isSuccess` discriminant. -/
def FetchResult.isSuccess : FetchResult → Bool
  | .success _ => true
  | .failure _ => false

/-- The context handed to the response interceptor. -/
structure ResponseCtx where
  request : RequestContext
  result : FetchResult
  durationMs : Nat

/-- A thrown JS exception, with the classification data the catch block
reads: `instanceof Error`, `name`, `message`, `instanceof TypeError`. -/
structure JsError where
  isErrorInstance : Bool
  name : String
  message : String
  isTypeError : Bool

/-- Outcome of one transport dispatch: a settled response or a thrown
transport-level exception (network failure or cancellation). -/
inductive AttemptResult where
  | respond (r : TransportResponse)
  | threw (e : JsError)

/-- CacheItem from the source. -/
structure CacheItem where
  data : FetchResult
  timestamp : Int

/-- The process-wide `responseCache` Map, as an association list in insertion
order. -/
abbrev Cache := List (String × CacheItem)

/-- `Map.get`. -/
def cacheGet (c : Cache) (k : String) : Option CacheItem :=
  (c.find? (fun p => p.1 == k)).map (fun p => p.2)

/-- `Map.delete`. -/
def cacheDelete (c : Cache) (k : String) : Cache :=
  c.filter (fun p => !(p.1 == k))

/-- `clearFetchCache`. -/
def clearFetchCache (_c : Cache) : Cache := []

/-- `clearSpecificCache(url, method = "GET", body = null)`: deletes the key
`method:url:(body ?? "")` (note: no `$` in this template, unlike the key the
engine stores under). -/
def clearSpecificCache (c : Cache) (url : String) (method : String) (body : Option String) : Cache :=
  cacheDelete c (method ++ ":" ++ url ++ ":" ++ body.getD "")

/-- The `{size, keys}` record of `getCacheStats`. -/
structure CacheStats where
  size : Nat
  keys : List String

/-- `getCacheStats`. -/
def getCacheStats (c : Cache) : CacheStats :=
  { size := c.length, keys := c.map (fun p => p.1) }

/-- FetchOptions (the fields the engine reads, with the source's defaults).
`timeout` is realized by the transport collaborator raising an AbortError, so
it appears only through `Env.fetchResult`. -/
structure FetchOpts where
  url : String
  method : String := "GET"
  headers : List (String × String) := []
  body : Option BodyVal := none
  params : Option (List (String × ParamVal)) := none
  customToken : Option String := none
  retries : Nat := 0
  retryDelay : Nat := 1000
  validateStatus : Option (Nat → Bool) := none
  responseGuard : Option (JSValue → Bool) := none
  errorGuard : Option (JSValue → Bool) := none
  errorTransformer : Option (JSValue → Nat → JSValue) := none
  responseTransformer : Option (JSValue → JSValue) := none
  cacheResponse : Bool := false
  cacheTime : Int := 300000
  onRequest : Option (RequestContext → Except JsError RequestContext) := none
  onResponse : Option (ResponseCtx → Except JsError FetchResult) := none

/-- The environment: external collaborators and ambient state.
`fetchResult a` is the transport's behaviour on the `a`-th dispatch of this
call; `durOf a` the measured duration at attempt `a`; `probeNow`/`writeNow`
the wall clock at the cache probe / cache writes; `cache0` the process-wide
cache when the call starts. -/
structure Env where
  isDev : Bool := false
  requestId : String := "rid"
  stackStr : String := "stack0"
  encode : String → String := id
  jsonParse : String → Option JSValue := fun _ => none
  base64 : List Nat → String := fun _ => ""
  fetchResult : Nat → AttemptResult
  probeNow : Int := 0
  writeNow : Int := 0
  wallNow : Int := 0
  durOf : Nat → Nat := fun _ => 0
  cache0 : Cache := []

/-- Observable pipeline events: a transport dispatch (with its attempt
index), a backoff sleep (with its duration), a response-interceptor call. -/
inductive Event where
  | dispatch (idx : Nat)
  | sleep (ms : Nat)
  | onRespCall

/-- The engine's complete observable outcome. -/
structure EngineOut where
  result : Except JsError FetchResult
  cache : Cache
  trace : List Event

/-- Result of one iteration of the dispatch loop's try body:
terminal return, retry (backoff and loop), or an exception reaching the
catch block. -/
inductive TryStep where
  | done (r : FetchResult) (cache : Cache) (evs : List Event)
  | retry (lastMsg : JSValue) (sleepMs : Nat) (evs : List Event)
  | threw (e : JsError) (evs : List Event)

/-- The events an iteration emitted. -/
def TryStep.events : TryStep → List Event
  | .done _ _ evs => evs
  | .retry _ _ evs => evs
  | .threw _ evs => evs

/-- `createSuccessResponse`. -/
def createSuccessResponse (env : Env) (response : JSValue) (code : Nat)
    (headers : List (String × HVal)) (requestId : String) (durationMs : Nat) : SuccessR :=
  { response := response, code := code, createdAt := env.wallNow,
    headers := headers, requestId := requestId, durationMs := durationMs }

/-- `createErrorResponse` (attaches a stack trace only in dev builds). -/
def createErrorResponse (env : Env) (errors : JSValue) (code : Option Nat)
    (requestId : String) (durationMs : Nat) : ErrorR :=
  { errors := errors, code := code, createdAt := env.wallNow,
    requestId := requestId, durationMs := durationMs,
    stack := if env.isDev then some env.stackStr else none }

/-- The engine's local `makeError` helper. -/
def makeError (env : Env) (message : JSValue) (code : Option Nat) (durationMs : Nat) : ErrorR :=
  createErrorResponse env (.obj [("message", message)]) code env.requestId durationMs

/-- `validateStatus ? validateStatus(code) : response.ok`. -/
def isOkOf (validateStatus : Option (Nat → Bool)) (resp : TransportResponse) : Bool :=
  match validateStatus with
  | some f => f resp.status
  | none => resp.ok

/-- `errorGuard && !errorGuard(errorData)`. -/
def guardRejects (g : Option (JSValue → Bool)) (v : JSValue) : Bool :=
  match g with
  | some g0 => !(g0 v)
  | none => false

/-- `errorTransformer ? errorTransformer(errorData, code) : errorData`. -/
def applyErrorTransformer (t : Option (JSValue → Nat → JSValue)) (e : JSValue) (code : Nat) : JSValue :=
  match t with
  | some t0 => t0 e code
  | none => e

/-- `code >= 500 || code === 429`. -/
def retriableStatus (code : Nat) : Bool :=
  decide (500 ≤ code) || code == 429

/-- Result of the responseGuard / responseTransformer region: the parsed
payload, or rejection by the guard. -/
inductive ParsedOutcome where
  | ok (v : JSValue)
  | rejected

/-- `typeof v === "object" && v !== null`. -/
def jsIsObjectNonNull : JSValue → Bool
  | .obj _ => true
  | .arr _ => true
  | _ => false

/-- The responseGuard / responseTransformer branch of the success path: a
present guard validates the raw parsed shape (rejection is terminal, and the
transformer is never consulted); without a guard, a transformer is applied to
non-null object values. -/
def computeParsed (responseGuard : Option (JSValue → Bool))
    (responseTransformer : Option (JSValue → JSValue)) (raw : JSValue) : ParsedOutcome :=
  match responseGuard with
  | some g => if g raw then .ok raw else .rejected
  | none =>
    match responseTransformer with
    | some t => if jsIsObjectNonNull raw then .ok (t raw) else .ok raw
    | none => .ok raw

/-- `if (cacheKey && code >= 400 && code < 500) responseCache.set(...)`. -/
def errorCacheWrite (env : Env) (cacheKey : Option String) (code : Nat)
    (r : FetchResult) (cache : Cache) : Cache :=
  match cacheKey with
  | some k => if 400 ≤ code ∧ code < 500 then alSet cache k ⟨r, env.writeNow⟩ else cache
  | none => cache

/-- `if (cacheKey) responseCache.set(...)` of the success path. -/
def successCacheWrite (env : Env) (cacheKey : Option String)
    (r : FetchResult) (cache : Cache) : Cache :=
  match cacheKey with
  | some k => alSet cache k ⟨r, env.writeNow⟩
  | none => cache

/-- Terminal handling of a non-retried error status: build the Failure, offer
it to the response interceptor (adopting the interceptor's outcome only when
it is itself a Failure; an interceptor throw escapes to the catch block),
then negative-cache 4xx outcomes. -/
def errorTerminal (env : Env) (opts : FetchOpts) (ctx : RequestContext)
    (cacheKey : Option String) (code : Nat) (transformedError : JSValue)
    (attempts : Nat) (cache : Cache) : TryStep :=
  let durationMs := env.durOf attempts
  let errorResponse : FetchResult :=
    .failure (createErrorResponse env transformedError (some code) env.requestId durationMs)
  match opts.onResponse with
  | none => .done errorResponse (errorCacheWrite env cacheKey code errorResponse cache) [.dispatch attempts]
  | some f =>
    match f ⟨ctx, errorResponse, durationMs⟩ with
    | .error e => .threw e [.dispatch attempts, .onRespCall]
    | .ok r =>
      let finalR := if r.isSuccess then errorResponse else r
      .done finalR (errorCacheWrite env cacheKey code finalR cache) [.dispatch attempts, .onRespCall]

/-- Terminal handling of a validated success: build the Success, offer it to
the response interceptor (adopting the interceptor's outcome only when it is
itself a Success; an interceptor throw escapes to the catch block), then
cache unconditionally when caching is enabled. -/
def successTerminal (env : Env) (opts : FetchOpts) (ctx : RequestContext)
    (cacheKey : Option String) (code : Nat) (parsedResponse : JSValue)
    (resp : TransportResponse) (attempts : Nat) (cache : Cache) : TryStep :=
  let durationMs := env.durOf attempts
  let successResponse : FetchResult :=
    .success (createSuccessResponse env parsedResponse code (collectHeaders resp) env.requestId durationMs)
  match opts.onResponse with
  | none => .done successResponse (successCacheWrite env cacheKey successResponse cache) [.dispatch attempts]
  | some f =>
    match f ⟨ctx, successResponse, durationMs⟩ with
    | .error e => .threw e [.dispatch attempts, .onRespCall]
    | .ok r =>
      let finalR := if r.isSuccess then r else successResponse
      .done finalR (successCacheWrite env cacheKey finalR cache) [.dispatch attempts, .onRespCall]

/-- One iteration of the dispatch loop's try body (source lines 500-643):
dispatch, classify by status, parse/validate/transform, decide
terminal/retry/throw. -/
def fetchAttempt (env : Env) (opts : FetchOpts) (ctx : RequestContext)
    (cacheKey : Option String) (attempts : Nat) (cache : Cache) : TryStep :=
  match env.fetchResult attempts with
  | .threw e => .threw e [.dispatch attempts]
  | .respond resp =>
    let code := resp.status
    let durationMs := env.durOf attempts
    if !(isOkOf opts.validateStatus resp) then
      let errorData := mkErrorData (parseResponseBody env.jsonParse resp)
      if guardRejects opts.errorGuard errorData then
        .done (.failure (createErrorResponse env (.obj [("message", .str "Error validation failed")])
          (some code) env.requestId durationMs)) cache [.dispatch attempts]
      else
        let transformedError := applyErrorTransformer opts.errorTransformer errorData code
        if retriableStatus code && decide (attempts < opts.retries) then
          let backoffTime := opts.retryDelay * 2 ^ (attempts + 1 - 1)
          .retry (transformedError.getField "message") backoffTime
            [.dispatch attempts, .sleep backoffTime]
        else
          errorTerminal env opts ctx cacheKey code transformedError attempts cache
    else
      let contentType := resp.contentType.getD ""
      if isBinaryContentType contentType then
        successTerminal env opts ctx cacheKey code (.str (env.base64 resp.bodyBytes)) resp attempts cache
      else
        match computeParsed opts.responseGuard opts.responseTransformer
          (parseResponseBody env.jsonParse resp) with
        | .rejected =>
          .done (.failure (createErrorResponse env (.obj [("message", .str "Response validation failed")])
            (some code) env.requestId durationMs)) cache [.dispatch attempts]
        | .ok parsedResponse =>
          successTerminal env opts ctx cacheKey code parsedResponse resp attempts cache

/-- The dispatch loop (`while (attempts <= retries)`), fuelled by
`retries + 1 - attempts`.  The catch block classifies a thrown exception:
non-abort network errors with attempts remaining are retried with exponential
backoff; an AbortError terminates immediately as a 408 "Request timeout"
Failure; anything else terminates as a null-status Failure.  The fuel-0 case
mirrors the (unreachable) post-loop `makeError(lastErrorMessage, null)`. -/
def fetchLoop (env : Env) (opts : FetchOpts) (ctx : RequestContext) (cacheKey : Option String) :
    Nat → Nat → JSValue → Cache → List Event → EngineOut
  | 0, attempts, lastMsg, cache, trace =>
    ⟨.ok (.failure (makeError env lastMsg none (env.durOf attempts))), cache, trace⟩
  | fuel + 1, attempts, lastMsg, cache, trace =>
    match fetchAttempt env opts ctx cacheKey attempts cache with
    | .done r cache2 evs => ⟨.ok r, cache2, trace ++ evs⟩
    | .retry newMsg _sleepMs evs =>
      fetchLoop env opts ctx cacheKey fuel (attempts + 1) newMsg cache (trace ++ evs)
    | .threw e evs =>
      let isError := e.isErrorInstance
      let isAbortError := isError && e.name == "AbortError"
      let isNetworkError := e.isTypeError && strIncludes e.message "NetworkError"
      if !isAbortError && isNetworkError && decide (attempts < opts.retries) then
        let backoffTime := opts.retryDelay * 2 ^ (attempts + 1 - 1)
        fetchLoop env opts ctx cacheKey fuel (attempts + 1) lastMsg cache
          (trace ++ evs ++ [.sleep backoffTime])
      else if isAbortError then
        ⟨.ok (.failure (makeError env (.str "Request timeout") (some 408) (env.durOf attempts))),
          cache, trace ++ evs⟩
      else
        ⟨.ok (.failure (makeError env
          (if isError then .str e.message else .str "Unknown error occurred") none
          (env.durOf attempts))), cache, trace ++ evs⟩

/-- `typeof requestContext.body === "string" ? requestContext.body : ""`. -/
def bodyTextOf : Option BodyVal → String
  | some (.str s) => s
  | _ => ""

/-- The engine's cache key.  The source template is
`` $\x7bmethod\x7d:$\x7burl\x7d:$$\x7bbody text\x7d `` — note the literal `$`
before the body segment. -/
def mkCacheKey (ctx : RequestContext) : String :=
  ctx.method ++ ":" ++ ctx.url ++ ":$" ++ bodyTextOf ctx.body

/-- The pipeline from the cache probe onward (after the request interceptor
has produced the effective RequestContext). -/
def CustomFetchAfterIntercept (env : Env) (opts : FetchOpts) (ctx : RequestContext) : EngineOut :=
  let cacheKey : Option String := if opts.cacheResponse then some (mkCacheKey ctx) else none
  let initMsg : JSValue := .str "Maximum retry count reached"
  match cacheKey with
  | some key =>
    match cacheGet env.cache0 key with
    | some item =>
      if env.probeNow - item.timestamp < opts.cacheTime then
        ⟨.ok item.data, env.cache0, []⟩
      else
        fetchLoop env opts ctx (some key) (opts.retries + 1) 0 initMsg (cacheDelete env.cache0 key) []
    | none => fetchLoop env opts ctx (some key) (opts.retries + 1) 0 initMsg env.cache0 []
  | none => fetchLoop env opts ctx none (opts.retries + 1) 0 initMsg env.cache0 []

/-- Header assembly: caller headers, then `Authorization: Bearer <token>`,
then the JSON-sniffing `Content-Type` default for truthy string bodies. -/
def assembleHeaders (env : Env) (opts : FetchOpts) : List (String × String) :=
  let headers0 := opts.headers.foldl (fun acc p => hset acc p.1 p.2) []
  let headers1 :=
    match opts.customToken with
    | some tok => hset headers0 "Authorization" ("Bearer " ++ tok)
    | none => headers0
  match opts.body with
  | some (.str s) =>
    if !(s == "") && !(hhas headers1 "Content-Type") then
      match env.jsonParse s with
      | some _ => hset headers1 "Content-Type" "application/json"
      | none => headers1
    else headers1
  | _ => headers1

/-- The RequestContext assembled before the request interceptor runs. -/
def initialContext (env : Env) (opts : FetchOpts) : RequestContext :=
  { url := buildUrl env.encode opts.url opts.params,
    method := opts.method,
    headers := assembleHeaders env opts,
    body := opts.body,
    requestId := env.requestId }

/-- The CustomFetch engine.  A request-interceptor throw happens before the
try/catch of the dispatch loop and therefore escapes as `.error`. -/
def CustomFetch (env : Env) (opts : FetchOpts) : EngineOut :=
  match opts.onRequest with
  | some f =>
    match f (initialContext env opts) with
    | .error e => ⟨.error e, env.cache0, []⟩
    | .ok ctx => CustomFetchAfterIntercept env opts ctx
  | none => CustomFetchAfterIntercept env opts (initialContext env opts)

/-- The cache key the engine computes when no request interceptor rewrites
the context: post-assembly method, effective URL, `$`, textual body. -/
def engineCacheKey (env : Env) (opts : FetchOpts) : String :=
  opts.method ++ ":" ++ buildUrl env.encode opts.url opts.params ++ ":$" ++ bodyTextOf opts.body

/-- Number of transport dispatches recorded in a trace. -/
def dispatchCount (t : List Event) : Nat :=
  t.countP (fun e => match e with | .dispatch _ => true | _ => false)

/-- The backoff sleeps recorded in a trace, in order. -/
def sleepsOf (t : List Event) : List Nat :=
  t.filterMap (fun e => match e with | .sleep ms => some ms | _ => none)

/-- The dispatch/sleep event pattern of a run of persistent retriable errors:
a dispatch at attempt `a`, then for each retry a sleep of `rd * 2 ^ i` and
the next dispatch. -/
def pat503 (rd : Nat) : Nat → Nat → List Event
  | a, 0 => [.dispatch a]
  | a, n + 1 => .dispatch a :: .sleep (rd * 2 ^ a) :: pat503 rd (a + 1) n

/-!
Byte-level model of query-string serialization for the round-trip property.
JS strings are represented by their UTF-8 byte sequences (lists of naturals
below 256); `encodeURIComponent` acts bytewise on that representation:
unreserved ASCII bytes pass through, every other byte becomes `%XX` with
uppercase hexadecimal digits.
-/

/-- The bytes `encodeURIComponent` leaves unescaped:
`A-Z a-z 0-9 - _ . ! ~ * ' ( )`. -/
def unreservedByte (b : Nat) : Bool :=
  (decide (65 ≤ b) && decide (b ≤ 90)) || (decide (97 ≤ b) && decide (b ≤ 122)) ||
  (decide (48 ≤ b) && decide (b ≤ 57)) ||
  b == 45 || b == 95 || b == 46 || b == 33 || b == 126 ||
  b == 42 || b == 39 || b == 40 || b == 41

/-- Uppercase hexadecimal digit for a nibble. -/
def hexDigitChar (n : Nat) : Nat :=
  if n < 10 then 48 + n else 55 + n

/-- `encodeURIComponent` on one byte: pass through or `%XX`-escape
(37 is `%`). -/
def encByte (b : Nat) : List Nat :=
  if unreservedByte b then [b] else [37, hexDigitChar (b / 16), hexDigitChar (b % 16)]

/-- `encodeURIComponent` on a byte string. -/
def encBytes (s : List Nat) : List Nat :=
  s.flatMap encByte

/-- Value of a hexadecimal digit byte. -/
def hexVal (c : Nat) : Nat :=
  if 48 ≤ c ∧ c ≤ 57 then c - 48
  else if 65 ≤ c ∧ c ≤ 70 then c - 55
  else if 97 ≤ c ∧ c ≤ 102 then c - 87
  else 0

/-- `decodeURIComponent` on a byte string: `%XX` triples collapse to one
byte, everything else passes through. -/
def decBytes : List Nat → List Nat
  | [] => []
  | 37 :: h1 :: h2 :: rest => (hexVal h1 * 16 + hexVal h2) :: decBytes rest
  | c :: rest => c :: decBytes rest

/-- A byte-level query-parameter value. -/
inductive PValB where
  | scalar (v : List Nat)
  | list (xs : List (List Nat))
  | null
  deriving DecidableEq

/-- One serialized `key=value` part (61 is `=`). -/
def mkPairPart (k v : List Nat) : List Nat :=
  encBytes k ++ 61 :: encBytes v

/-- `Array.prototype.join(sep)`. -/
def joinSep (sep : List Nat) : List (List Nat) → List Nat
  | [] => []
  | [p] => p
  | p :: q :: ps => p ++ sep ++ joinSep sep (q :: ps)

/-- `serializeParams` at byte level, with the percent-codec modeled
concretely: skip null/undefined values, emit one encoded `key=value` part per
scalar or list element, join the parts with `&` (38). -/
def serializeParamsB (params : List (List Nat × PValB)) : List Nat :=
  joinSep [38] (params.flatMap (fun kv =>
    match kv.2 with
    | .null => []
    | .scalar v => [mkPairPart kv.1 v]
    | .list xs => xs.map (mkPairPart kv.1)))

/-- Split a byte string on a separator byte. -/
def splitSep (sep : Nat) : List Nat → List (List Nat)
  | [] => [[]]
  | c :: rest =>
    match splitSep sep rest with
    | [] => [[c]]
    | g :: gs => if c = sep then [] :: g :: gs else (c :: g) :: gs

/-- The receiving side's decoding of a query string, following the claim:
split on `&`, split each pair at the first `=`, percent-decode key and
value. -/
def parseQueryB (q : List Nat) : List (List Nat × List Nat) :=
  if q = [] then []
  else (splitSep 38 q).map (fun part =>
    (decBytes (part.takeWhile (fun c => !(c == 61))),
     decBytes ((part.dropWhile (fun c => !(c == 61))).drop 1)))

/-- The key-to-value(s) content of a parameter map: one pair per scalar, one
pair per list element in list order, nothing for null values. -/
def flattenParamsB (params : List (List Nat × PValB)) : List (List Nat × List Nat) :=
  params.flatMap (fun kv =>
    match kv.2 with
    | .null => []
    | .scalar v => [(kv.1, v)]
    | .list xs => xs.map (fun x => (kv.1, x)))

/-- Well-formed byte strings: every element is a byte. -/
def bytesOk (s : List Nat) : Prop :=
  ∀ b ∈ s, b < 256

/-!
Concrete instances used by individual claims' theorems, counterexamples and
witnesses.
-/

/-- C1 instance: a transport that answers a plain 200 text response. -/
def c1env : Env := { fetchResult := fun _ => .respond ⟨200, true, none, "ok", [], [], []⟩ }

/-- C1 instance: a cached GET to URL `u` with no body. -/
def c1opts : FetchOpts := { url := "u", cacheResponse := true }

/-- C2 error-path instance: every dispatch settles as a 404. -/
def c2envE : Env := { fetchResult := fun _ => .respond ⟨404, false, none, "nope", [], [], []⟩ }

/-- C2 error-path options: a response interceptor substituting outcome `r`. -/
def c2optsE (r : FetchResult) : FetchOpts :=
  { url := "u", onResponse := some (fun _ => .ok r) }

/-- The terminal Failure the engine builds for `c2envE` before interception. -/
def c2baseFailure : ErrorR := ⟨.obj [("message", .str "nope")], some 404, 0, "rid", 0, none⟩

/-- C2 success-path instance: every dispatch settles as a 200. -/
def c2envS : Env := { fetchResult := fun _ => .respond ⟨200, true, none, "okay", [], [], []⟩ }

/-- C2 success-path options: a response interceptor substituting outcome `r`. -/
def c2optsS (r : FetchResult) : FetchOpts :=
  { url := "u", onResponse := some (fun _ => .ok r) }

/-- The terminal Success the engine builds for `c2envS` before interception. -/
def c2baseSuccess : SuccessR := ⟨.str "okay", 200, 0, [], "rid", 0⟩

/-- A Success the C2 interceptor tries to substitute for a Failure. -/
def c2forged : SuccessR := ⟨.str "forged", 299, 0, [], "rid", 0⟩

/-- C3 instance: the 404 response of the error path. -/
def c3resp : TransportResponse := ⟨404, false, none, "nope", [], [], []⟩

/-- C3 transport. -/
def c3env : Env := { fetchResult := fun _ => .respond c3resp }

/-- C3 instance: the exception the response interceptor raises. -/
def c3err : JsError := ⟨true, "Boom", "boom", false⟩

/-- C3 options: a response interceptor that raises `c3err`. -/
def c3opts : FetchOpts := { url := "u", onResponse := some (fun _ => .error c3err) }

/-- C3 options for the request-interceptor conjunct: `onRequest` raises. -/
def c3optsReq : FetchOpts := { url := "u", onRequest := some (fun _ => .error c3err) }

/-- C4 instance: the timeout-triggered cancellation exception. -/
def c4err : JsError := ⟨true, "AbortError", "The operation was aborted", false⟩

/-- C4 transport: every dispatch is aborted. -/
def c4env : Env := { fetchResult := fun _ => .threw c4err }

/-- C4 options with plenty of retries remaining. -/
def c4opts : FetchOpts := { url := "u", retries := 7 }

/-- C5 instance: a persistent 503 response. -/
def c5resp : TransportResponse := ⟨503, false, none, "overloaded", [], [], []⟩

/-- C5 transport. -/
def c5env : Env := { fetchResult := fun _ => .respond c5resp }

/-- C5 options: two retries with base delay 5. -/
def c5opts : FetchOpts := { url := "u", retries := 2, retryDelay := 5 }

/-- C6 instance: the stored cache entry. -/
def c6item : CacheItem := ⟨.success ⟨.str "cached", 200, 5, [], "old", 7⟩, 0⟩

/-- C6 transport: never reached on the live-hit path. -/
def c6env : Env :=
  { fetchResult := fun _ => .threw ⟨true, "X", "never dispatched", false⟩,
    probeNow := 1, cache0 := [("GET:u:$", c6item)] }

/-- C6 options: a cached GET to `u`. -/
def c6opts : FetchOpts := { url := "u", cacheResponse := true }

/-- C7 instance: a 200 response whose parsed body the guard rejects. -/
def c7resp : TransportResponse := ⟨200, true, none, "body", [], [], []⟩

/-- C7 transport. -/
def c7env : Env := { fetchResult := fun _ => .respond c7resp }

/-- C7 options: a rejecting response guard next to a transformer. -/
def c7opts : FetchOpts :=
  { url := "u", responseGuard := some (fun _ => false),
    responseTransformer := some (fun _ => .str "TRANSFORMED") }

/-- C8 witness parameter map; the scalar value contains raw `&` and `=`. -/
def c8params : List (List Nat × PValB) :=
  [([97], .scalar [38, 61]), ([98], .list [[99], [100]])]

/-- C10 error-guard instance: a retriable 503 rejected by the error guard. -/
def c10aresp : TransportResponse := ⟨503, false, none, "boom", [], [], []⟩

/-- C10 error-guard transport. -/
def c10aenv : Env := { fetchResult := fun _ => .respond c10aresp }

/-- C10 error-guard options (interceptor configured but never reached). -/
def c10aopts : FetchOpts :=
  { url := "u", retries := 5, errorGuard := some (fun _ => false),
    onResponse := some (fun c => .ok c.result) }

/-- C10 response-guard instance: a 201 rejected by the response guard. -/
def c10bresp : TransportResponse := ⟨201, true, none, "yo", [], [], []⟩

/-- C10 response-guard transport. -/
def c10benv : Env := { fetchResult := fun _ => .respond c10bresp }

/-- C10 response-guard options (interceptor configured but never reached). -/
def c10bopts : FetchOpts :=
  { url := "u", responseGuard := some (fun _ => false),
    onResponse := some (fun c => .ok c.result) }

/-- C10 transport-exception instance: an unclassified thrown value. -/
def c10cerr : JsError := ⟨false, "weird", "strange failure", false⟩

/-- C10 transport-exception environment. -/
def c10cenv : Env := { fetchResult := fun _ => .threw c10cerr }

/-- C10 transport-exception options (interceptor configured, retries left). -/
def c10copts : FetchOpts :=
  { url := "u", retries := 3, onResponse := some (fun c => .ok c.result) }

/-!
Helper lemmas: percent-encoding round trip.
-/

lemma hexDigitChar_ne38 (n : Nat) : hexDigitChar n ≠ 38 := by
  unfold hexDigitChar; split <;> omega

lemma hexDigitChar_ne61 (n : Nat) : hexDigitChar n ≠ 61 := by
  unfold hexDigitChar; split <;> omega

lemma hexVal_hexDigitChar (n : Nat) (h : n < 16) : hexVal (hexDigitChar n) = n := by
  interval_cases n <;> decide

lemma decBytes_nil : decBytes [] = [] := rfl

lemma decBytes_escape (h1 h2 : Nat) (rest : List Nat) :
    decBytes (37 :: h1 :: h2 :: rest) = (hexVal h1 * 16 + hexVal h2) :: decBytes rest := rfl

lemma decBytes_cons_ne37 (c : Nat) (rest : List Nat) (h : c ≠ 37) :
    decBytes (c :: rest) = c :: decBytes rest := by
  rw [decBytes.eq_def]
  split <;> simp_all

lemma encBytes_cons (b : Nat) (s : List Nat) :
    encBytes (b :: s) = encByte b ++ encBytes s := by
  simp [encBytes]

lemma mem_encByte {b c : Nat} (h : c ∈ encByte b) :
    (c = b ∧ unreservedByte b = true) ∨ c = 37 ∨ (∃ n, c = hexDigitChar n) := by
  unfold encByte at h
  split at h
  · simp at h
    exact Or.inl ⟨h, by assumption⟩
  · simp at h
    rcases h with h | h | h
    · exact Or.inr (Or.inl h)
    · exact Or.inr (Or.inr ⟨_, h⟩)
    · exact Or.inr (Or.inr ⟨_, h⟩)

lemma encBytes_no_amp (s : List Nat) : 38 ∉ encBytes s := by
  induction s with
  | nil => simp [encBytes]
  | cons b s ih =>
    rw [encBytes_cons]
    intro hmem
    rcases List.mem_append.1 hmem with h | h
    · rcases mem_encByte h with ⟨he, hu⟩ | h | ⟨n, h⟩
      · subst he; revert hu; decide
      · omega
      · exact hexDigitChar_ne38 n h.symm
    · exact ih h

lemma encBytes_no_eq (s : List Nat) : 61 ∉ encBytes s := by
  induction s with
  | nil => simp [encBytes]
  | cons b s ih =>
    rw [encBytes_cons]
    intro hmem
    rcases List.mem_append.1 hmem with h | h
    · rcases mem_encByte h with ⟨he, hu⟩ | h | ⟨n, h⟩
      · subst he; revert hu; decide
      · omega
      · exact hexDigitChar_ne61 n h.symm
    · exact ih h

lemma decBytes_encBytes_append (s t : List Nat) (hs : bytesOk s) :
    decBytes (encBytes s ++ t) = s ++ decBytes t := by
  induction s with
  | nil => simp [encBytes, decBytes]
  | cons b s ih =>
    have hb : b < 256 := hs b (by simp)
    have hs' : bytesOk s := fun x hx => hs x (by simp [hx])
    rw [encBytes_cons, List.append_assoc]
    unfold encByte
    split
    · rename_i hu
      have hb37 : b ≠ 37 := by
        intro e
        subst e
        exact absurd hu (by decide)
      rw [List.singleton_append, decBytes_cons_ne37 _ _ hb37, ih hs', List.cons_append]
    · rw [show ([37, hexDigitChar (b / 16), hexDigitChar (b % 16)] : List Nat) ++ (encBytes s ++ t)
          = 37 :: hexDigitChar (b / 16) :: hexDigitChar (b % 16) :: (encBytes s ++ t) from rfl]
      rw [decBytes_escape, hexVal_hexDigitChar _ (by omega), hexVal_hexDigitChar _ (by omega),
        ih hs', List.cons_append]
      congr 1
      omega

lemma decBytes_encBytes (s : List Nat) (hs : bytesOk s) : decBytes (encBytes s) = s := by
  have h2 := decBytes_encBytes_append s [] hs
  simpa [decBytes_nil] using h2

lemma splitSep_cons (sep c : Nat) (rest : List Nat) :
    splitSep sep (c :: rest) =
      match splitSep sep rest with
      | [] => [[c]]
      | g :: gs => if c = sep then [] :: g :: gs else (c :: g) :: gs := rfl

lemma splitSep_ne_nil (sep : Nat) (l : List Nat) : splitSep sep l ≠ [] := by
  induction l with
  | nil => simp [splitSep]
  | cons c rest ih =>
    rw [splitSep_cons]
    cases h : splitSep sep rest with
    | nil => exact absurd h ih
    | cons g gs => by_cases hc : c = sep <;> simp [hc]

lemma splitSep_no_sep (sep : Nat) (l : List Nat) (h : sep ∉ l) : splitSep sep l = [l] := by
  induction l with
  | nil => rfl
  | cons c rest ih =>
    have hc : c ≠ sep := fun e => h (by simp [e])
    have hrest : sep ∉ rest := fun hm => h (by simp [hm])
    rw [splitSep_cons, ih hrest]
    simp [hc]

lemma splitSep_append (sep : Nat) (a t : List Nat) (ha : sep ∉ a) :
    splitSep sep (a ++ sep :: t) = a :: splitSep sep t := by
  induction a with
  | nil =>
    rw [List.nil_append, splitSep_cons]
    cases h : splitSep sep t with
    | nil => exact absurd h (splitSep_ne_nil sep t)
    | cons g gs => simp
  | cons c a' ih =>
    have hc : c ≠ sep := fun e => ha (by simp [e])
    have ha' : sep ∉ a' := fun hm => ha (by simp [hm])
    rw [List.cons_append, splitSep_cons, ih ha']
    simp [hc]

lemma splitSep_joinSep (parts : List (List Nat)) (hne : parts ≠ [])
    (h : ∀ p ∈ parts, 38 ∉ p) :
    splitSep 38 (joinSep [38] parts) = parts := by
  induction parts with
  | nil => exact absurd rfl hne
  | cons p ps ih =>
    cases ps with
    | nil =>
      rw [show joinSep [38] [p] = p from rfl]
      exact splitSep_no_sep 38 p (h p (by simp))
    | cons q ps' =>
      rw [show joinSep [38] (p :: q :: ps') = p ++ [38] ++ joinSep [38] (q :: ps') from rfl,
        List.append_assoc, List.singleton_append,
        splitSep_append 38 p _ (h p (by simp))]
      rw [ih (by simp) (fun x hx => h x (by simp [hx]))]

lemma joinSep_cons_ne_nil (sep : List Nat) (p : List Nat) (ps : List (List Nat)) (hp : p ≠ []) :
    joinSep sep (p :: ps) ≠ [] := by
  cases ps with
  | nil => simpa [joinSep] using hp
  | cons q ps' =>
    rw [show joinSep sep (p :: q :: ps') = p ++ sep ++ joinSep sep (q :: ps') from rfl]
    simp [hp]

lemma mkPairPart_ne_nil (k v : List Nat) : mkPairPart k v ≠ [] := by
  unfold mkPairPart
  simp

lemma mkPairPart_no_amp (k v : List Nat) : 38 ∉ mkPairPart k v := by
  unfold mkPairPart
  intro hmem
  rcases List.mem_append.1 hmem with h | h
  · exact encBytes_no_amp k h
  · rcases List.mem_cons.1 h with h | h
    · omega
    · exact encBytes_no_amp v h

lemma parse_part (k v : List Nat) (hk : bytesOk k) (hv : bytesOk v) :
    (decBytes ((mkPairPart k v).takeWhile (fun c => !(c == 61))),
     decBytes (((mkPairPart k v).dropWhile (fun c => !(c == 61))).drop 1)) = (k, v) := by
  unfold mkPairPart
  have htake : ∀ (a t : List Nat), 61 ∉ a →
      ((a ++ 61 :: t).takeWhile (fun c => !(c == 61)) = a ∧
       (a ++ 61 :: t).dropWhile (fun c => !(c == 61)) = 61 :: t) := by
    intro a
    induction a with
    | nil =>
      intro t _
      constructor
      · rw [List.nil_append]
        simp [List.takeWhile_cons]
      · rw [List.nil_append]
        simp [List.dropWhile_cons]
    | cons c a' ih =>
      intro t ha
      have hc : c ≠ 61 := fun e => ha (by simp [e])
      have ha' : 61 ∉ a' := fun hm => ha (by simp [hm])
      have hcc : (!(c == 61)) = true := by simp [hc]
      constructor
      · rw [List.cons_append]
        simp [List.takeWhile_cons, hcc, (ih t ha').1]
      · rw [List.cons_append]
        simp [List.dropWhile_cons, hcc, (ih t ha').2]
  obtain ⟨h1, h2⟩ := htake (encBytes k) (encBytes v) (encBytes_no_eq k)
  rw [h1, h2, List.drop_one, List.tail_cons, decBytes_encBytes k hk, decBytes_encBytes v hv]

lemma parts_flatten (params : List (List Nat × PValB)) :
    (params.flatMap (fun kv =>
      match kv.2 with
      | .null => []
      | .scalar v => [mkPairPart kv.1 v]
      | .list xs => xs.map (mkPairPart kv.1)))
    = (flattenParamsB params).map (fun kv => mkPairPart kv.1 kv.2) := by
  induction params with
  | nil => rfl
  | cons kv ps ih =>
    obtain ⟨k, v⟩ := kv
    cases v <;> simp [flattenParamsB, List.flatMap_cons, ih, List.map_map]

lemma map_parse_eq (l : List (List Nat × List Nat))
    (h : ∀ kv ∈ l, bytesOk kv.1 ∧ bytesOk kv.2) :
    l.map ((fun part =>
      (decBytes (part.takeWhile (fun c => !(c == 61))),
       decBytes ((part.dropWhile (fun c => !(c == 61))).drop 1))) ∘
      (fun kv => mkPairPart kv.1 kv.2)) = l := by
  induction l with
  | nil => rfl
  | cons kv l' ih =>
    rw [List.map_cons, ih (fun x hx => h x (by simp [hx]))]
    have hp := parse_part kv.1 kv.2 (h kv (by simp)).1 (h kv (by simp)).2
    simp only [Function.comp_apply]
    rw [hp]

/-!
Helper lemmas: query-string serialization of all-null parameter maps.
-/

lemma serializeParams_all_null (enc : String → String) (params : List (String × ParamVal))
    (h : ∀ kv ∈ params, kv.2 = ParamVal.null) :
    serializeParams enc params = "" := by
  unfold serializeParams
  have hparts : params.flatMap (fun kv =>
      match kv.2 with
      | .null => []
      | .scalar v => [enc kv.1 ++ "=" ++ enc v]
      | .list xs => xs.map (fun x => enc kv.1 ++ "=" ++ enc x)) = [] := by
    induction params with
    | nil => rfl
    | cons kv ps ih =>
      rw [List.flatMap_cons, h kv (by simp), ih (fun x hx => h x (by simp [hx]))]
      rfl
  rw [hparts]
  rfl

/-!
Helper lemmas: the dispatch loop.
-/

lemma fetchLoop_succ (env : Env) (opts : FetchOpts) (ctx : RequestContext) (ck : Option String)
    (fuel a : Nat) (msg : JSValue) (cache : Cache) (trace : List Event) :
    fetchLoop env opts ctx ck (fuel + 1) a msg cache trace =
      match fetchAttempt env opts ctx ck a cache with
      | .done r cache2 evs => ⟨.ok r, cache2, trace ++ evs⟩
      | .retry newMsg _sleepMs evs =>
        fetchLoop env opts ctx ck fuel (a + 1) newMsg cache (trace ++ evs)
      | .threw e evs =>
        let isError := e.isErrorInstance
        let isAbortError := isError && e.name == "AbortError"
        let isNetworkError := e.isTypeError && strIncludes e.message "NetworkError"
        if !isAbortError && isNetworkError && decide (a < opts.retries) then
          let backoffTime := opts.retryDelay * 2 ^ (a + 1 - 1)
          fetchLoop env opts ctx ck fuel (a + 1) msg cache
            (trace ++ evs ++ [.sleep backoffTime])
        else if isAbortError then
          ⟨.ok (.failure (makeError env (.str "Request timeout") (some 408) (env.durOf a))),
            cache, trace ++ evs⟩
        else
          ⟨.ok (.failure (makeError env
            (if isError then .str e.message else .str "Unknown error occurred") none
            (env.durOf a))), cache, trace ++ evs⟩ := rfl

lemma errorTerminal_events (env : Env) (opts : FetchOpts) (ctx : RequestContext)
    (ck : Option String) (code : Nat) (te : JSValue) (a : Nat) (cache : Cache) :
    ∃ evs', (errorTerminal env opts ctx ck code te a cache).events = .dispatch a :: evs' := by
  unfold errorTerminal
  cases opts.onResponse with
  | none => exact ⟨[], rfl⟩
  | some f =>
    dsimp only
    cases f ⟨ctx, _, env.durOf a⟩ with
    | error e => exact ⟨[.onRespCall], rfl⟩
    | ok r => exact ⟨[.onRespCall], rfl⟩

lemma successTerminal_events (env : Env) (opts : FetchOpts) (ctx : RequestContext)
    (ck : Option String) (code : Nat) (pr : JSValue) (resp : TransportResponse)
    (a : Nat) (cache : Cache) :
    ∃ evs', (successTerminal env opts ctx ck code pr resp a cache).events = .dispatch a :: evs' := by
  unfold successTerminal
  cases opts.onResponse with
  | none => exact ⟨[], rfl⟩
  | some f =>
    dsimp only
    cases f ⟨ctx, _, env.durOf a⟩ with
    | error e => exact ⟨[.onRespCall], rfl⟩
    | ok r => exact ⟨[.onRespCall], rfl⟩

lemma fetchAttempt_events (env : Env) (opts : FetchOpts) (ctx : RequestContext)
    (ck : Option String) (a : Nat) (cache : Cache) :
    ∃ evs', (fetchAttempt env opts ctx ck a cache).events = .dispatch a :: evs' := by
  cases hfr : env.fetchResult a with
  | threw e => exact ⟨[], by simp [fetchAttempt, hfr, TryStep.events]⟩
  | respond resp =>
    simp only [fetchAttempt, hfr]
    split
    · split
      · exact ⟨[], rfl⟩
      · split
        · exact ⟨[.sleep _], rfl⟩
        · exact errorTerminal_events ..
    · split
      · exact successTerminal_events ..
      · split
        · exact ⟨[], rfl⟩
        · exact successTerminal_events ..

lemma fetchLoop_trace_extends (env : Env) (opts : FetchOpts) (ctx : RequestContext)
    (ck : Option String) :
    ∀ fuel a msg cache trace,
      ∃ ext, (fetchLoop env opts ctx ck fuel a msg cache trace).trace = trace ++ ext := by
  intro fuel
  induction fuel with
  | zero =>
    intro a msg cache trace
    exact ⟨[], by simp [fetchLoop]⟩
  | succ fuel ih =>
    intro a msg cache trace
    simp only [fetchLoop]
    cases h : fetchAttempt env opts ctx ck a cache with
    | done r c2 evs => exact ⟨evs, rfl⟩
    | retry m s evs =>
      obtain ⟨ext, hx⟩ := ih (a + 1) m cache (trace ++ evs)
      exact ⟨evs ++ ext, by rw [hx, List.append_assoc]⟩
    | threw e evs =>
      dsimp only
      split
      · obtain ⟨ext, hx⟩ :=
          ih (a + 1) msg cache (trace ++ evs ++ [.sleep (opts.retryDelay * 2 ^ (a + 1 - 1))])
        refine ⟨evs ++ [.sleep (opts.retryDelay * 2 ^ (a + 1 - 1))] ++ ext, ?_⟩
        rw [hx]
        simp [List.append_assoc]
      · split
        · exact ⟨evs, rfl⟩
        · exact ⟨evs, rfl⟩

lemma fetchLoop_head (env : Env) (opts : FetchOpts) (ctx : RequestContext)
    (ck : Option String) (fuel a : Nat) (msg : JSValue) (cache : Cache) (trace : List Event) :
    ∃ rest, (fetchLoop env opts ctx ck (fuel + 1) a msg cache trace).trace =
      trace ++ (.dispatch a :: rest) := by
  obtain ⟨evs', hevs⟩ := fetchAttempt_events env opts ctx ck a cache
  simp only [fetchLoop]
  cases h : fetchAttempt env opts ctx ck a cache with
  | done r c2 evs =>
    rw [h] at hevs
    simp only [TryStep.events] at hevs
    exact ⟨evs', by dsimp only; rw [hevs]⟩
  | retry m s evs =>
    rw [h] at hevs
    obtain ⟨ext, hx⟩ := fetchLoop_trace_extends env opts ctx ck fuel (a + 1) m cache (trace ++ evs)
    refine ⟨evs' ++ ext, ?_⟩
    rw [hx, List.append_assoc]
    simp only [TryStep.events] at hevs
    rw [hevs]
    rfl
  | threw e evs =>
    rw [h] at hevs
    simp only [TryStep.events] at hevs
    dsimp only
    split
    · obtain ⟨ext, hx⟩ := fetchLoop_trace_extends env opts ctx ck fuel (a + 1) msg cache
        (trace ++ evs ++ [.sleep (opts.retryDelay * 2 ^ (a + 1 - 1))])
      refine ⟨evs' ++ [.sleep (opts.retryDelay * 2 ^ (a + 1 - 1))] ++ ext, ?_⟩
      rw [hx, hevs]
      simp [List.append_assoc]
    · split
      · exact ⟨evs', by rw [hevs]⟩
      · exact ⟨evs', by rw [hevs]⟩

lemma fetchAttempt_cache0_irrel (env : Env) (x : Cache) (opts : FetchOpts)
    (ctx : RequestContext) (ck : Option String) (a : Nat) (cache : Cache) :
    fetchAttempt { env with cache0 := x } opts ctx ck a cache =
      fetchAttempt env opts ctx ck a cache := rfl

lemma fetchLoop_cache0_irrel (env : Env) (x : Cache) (opts : FetchOpts)
    (ctx : RequestContext) (ck : Option String) :
    ∀ fuel a msg cache trace,
      fetchLoop { env with cache0 := x } opts ctx ck fuel a msg cache trace =
        fetchLoop env opts ctx ck fuel a msg cache trace := by
  intro fuel
  induction fuel with
  | zero => intro a msg cache trace; rfl
  | succ fuel ih =>
    intro a msg cache trace
    simp only [fetchLoop, fetchAttempt_cache0_irrel]
    cases h : fetchAttempt env opts ctx ck a cache with
    | done r c2 evs => rfl
    | retry m s evs => exact ih (a + 1) m cache (trace ++ evs)
    | threw e evs =>
      dsimp only
      split
      · exact ih (a + 1) msg cache (trace ++ evs ++ [.sleep (opts.retryDelay * 2 ^ (a + 1 - 1))])
      · rfl

/-!
Helper lemmas: the cache probe.
-/

lemma cacheGet_delete (c : Cache) (k : String) : cacheGet (cacheDelete c k) k = none := by
  induction c with
  | nil => rfl
  | cons p c' ih =>
    unfold cacheDelete at ih ⊢
    by_cases hp : p.1 == k
    · rw [List.filter_cons_of_neg (by simp [hp])]
      exact ih
    · rw [List.filter_cons_of_pos (by simp [hp])]
      unfold cacheGet at ih ⊢
      rw [List.find?_cons_of_neg _ (by simp [hp])]
      exact ih

lemma CustomFetch_probe (env : Env) (opts : FetchOpts)
    (hreq : opts.onRequest = none) (hck : opts.cacheResponse = true) :
    CustomFetch env opts =
      (match cacheGet env.cache0 (engineCacheKey env opts) with
       | some item =>
         if env.probeNow - item.timestamp < opts.cacheTime then
           ⟨.ok item.data, env.cache0, []⟩
         else
           fetchLoop env opts (initialContext env opts) (some (engineCacheKey env opts))
             (opts.retries + 1) 0 (.str "Maximum retry count reached")
             (cacheDelete env.cache0 (engineCacheKey env opts)) []
       | none =>
         fetchLoop env opts (initialContext env opts) (some (engineCacheKey env opts))
           (opts.retries + 1) 0 (.str "Maximum retry count reached") env.cache0 []) := by
  simp only [CustomFetch, hreq]
  simp only [CustomFetchAfterIntercept, hck, if_true]
  rfl

lemma CustomFetch_nocache_hit (env : Env) (opts : FetchOpts)
    (hreq : opts.onRequest = none)
    (hmiss : opts.cacheResponse = true →
      cacheGet env.cache0 (engineCacheKey env opts) = none) :
    CustomFetch env opts =
      fetchLoop env opts (initialContext env opts)
        (if opts.cacheResponse then some (engineCacheKey env opts) else none)
        (opts.retries + 1) 0 (.str "Maximum retry count reached") env.cache0 [] := by
  cases hcr : opts.cacheResponse with
  | false => simp [CustomFetch, hreq, CustomFetchAfterIntercept, hcr]
  | true =>
    rw [CustomFetch_probe env opts hreq hcr, hmiss hcr]
    simp [hcr]

/-!
Helper lemmas: terminal paths of the engine.
-/

lemma respGuardReject_run (env : Env) (opts : FetchOpts) (resp : TransportResponse)
    (g : JSValue → Bool) (hreq : opts.onRequest = none)
    (hmiss : opts.cacheResponse = true →
      cacheGet env.cache0 (engineCacheKey env opts) = none)
    (hfr0 : env.fetchResult 0 = .respond resp)
    (hok : isOkOf opts.validateStatus resp = true)
    (hbin : isBinaryContentType (resp.contentType.getD "") = false)
    (hguard : opts.responseGuard = some g)
    (hrej : g (parseResponseBody env.jsonParse resp) = false) :
    CustomFetch env opts =
      ⟨.ok (.failure (createErrorResponse env
          (.obj [("message", .str "Response validation failed")])
          (some resp.status) env.requestId (env.durOf 0))),
        env.cache0, [.dispatch 0]⟩ := by
  have hatt : ∀ ck cache, fetchAttempt env opts (initialContext env opts) ck 0 cache =
      .done (.failure (createErrorResponse env
        (.obj [("message", .str "Response validation failed")])
        (some resp.status) env.requestId (env.durOf 0))) cache [.dispatch 0] := by
    intro ck cache
    simp [fetchAttempt, hfr0, hok, hbin, computeParsed, hguard, hrej]
  rw [CustomFetch_nocache_hit env opts hreq hmiss, fetchLoop_succ, hatt]
  rfl

lemma errGuardReject_run (env : Env) (opts : FetchOpts) (resp : TransportResponse)
    (g : JSValue → Bool) (hreq : opts.onRequest = none)
    (hmiss : opts.cacheResponse = true →
      cacheGet env.cache0 (engineCacheKey env opts) = none)
    (hfr0 : env.fetchResult 0 = .respond resp)
    (hnotok : isOkOf opts.validateStatus resp = false)
    (hg : opts.errorGuard = some g)
    (hrej : g (mkErrorData (parseResponseBody env.jsonParse resp)) = false) :
    CustomFetch env opts =
      ⟨.ok (.failure (createErrorResponse env
          (.obj [("message", .str "Error validation failed")])
          (some resp.status) env.requestId (env.durOf 0))),
        env.cache0, [.dispatch 0]⟩ := by
  have hatt : ∀ ck cache, fetchAttempt env opts (initialContext env opts) ck 0 cache =
      .done (.failure (createErrorResponse env
        (.obj [("message", .str "Error validation failed")])
        (some resp.status) env.requestId (env.durOf 0))) cache [.dispatch 0] := by
    intro ck cache
    simp [fetchAttempt, hfr0, hnotok, guardRejects, hg, hrej]
  rw [CustomFetch_nocache_hit env opts hreq hmiss, fetchLoop_succ, hatt]
  rfl

lemma catchTerminal_run (env : Env) (opts : FetchOpts) (e : JsError)
    (hreq : opts.onRequest = none)
    (hmiss : opts.cacheResponse = true →
      cacheGet env.cache0 (engineCacheKey env opts) = none)
    (he0 : env.fetchResult 0 = .threw e)
    (hterm : (e.isErrorInstance = true ∧ e.name = "AbortError") ∨
      (e.isTypeError && strIncludes e.message "NetworkError") = false ∨
      opts.retries = 0) :
    ∃ err : ErrorR,
      CustomFetch env opts = ⟨.ok (.failure err), env.cache0, [.dispatch 0]⟩ := by
  have hatt : ∀ ck cache, fetchAttempt env opts (initialContext env opts) ck 0 cache =
      .threw e [.dispatch 0] := by
    intro ck cache
    simp [fetchAttempt, he0]
  rw [CustomFetch_nocache_hit env opts hreq hmiss, fetchLoop_succ, hatt]
  dsimp only
  by_cases habort : (e.isErrorInstance && e.name == "AbortError") = true
  · rw [if_neg (by simp [habort]), if_pos habort]
    exact ⟨_, rfl⟩
  · rcases hterm with ⟨h1, h2⟩ | hnet | hret
    · exact absurd (by simp [h1, h2]) habort
    · rw [if_neg (by simp [hnet]), if_neg habort]
      exact ⟨_, rfl⟩
    · rw [if_neg (by simp [hret]), if_neg habort]
      exact ⟨_, rfl⟩

lemma loopAbort (env : Env) (opts : FetchOpts) (ctx : RequestContext) (ck : Option String)
    (fuel a : Nat) (msg : JSValue) (cache : Cache) (trace : List Event) (e : JsError)
    (he : env.fetchResult a = .threw e) (hinst : e.isErrorInstance = true)
    (hname : e.name = "AbortError") :
    fetchLoop env opts ctx ck (fuel + 1) a msg cache trace =
      ⟨.ok (.failure (makeError env (.str "Request timeout") (some 408) (env.durOf a))),
        cache, trace ++ [.dispatch a]⟩ := by
  have hatt : fetchAttempt env opts ctx ck a cache = .threw e [.dispatch a] := by
    simp [fetchAttempt, he]
  simp only [fetchLoop, hatt]
  simp [hinst, hname]

lemma onRespThrow_caught (env : Env) (opts : FetchOpts) (resp : TransportResponse) (e : JsError)
    (hreq : opts.onRequest = none)
    (hmiss : opts.cacheResponse = true →
      cacheGet env.cache0 (engineCacheKey env opts) = none)
    (hfr0 : env.fetchResult 0 = .respond resp)
    (hnotok : isOkOf opts.validateStatus resp = false)
    (hg : opts.errorGuard = none)
    (hnr : retriableStatus resp.status = false)
    (hor : opts.onResponse = some (fun _ => .error e))
    (habort : (e.isErrorInstance && e.name == "AbortError") = false)
    (hnet : (e.isTypeError && strIncludes e.message "NetworkError") = false)
    (hinst : e.isErrorInstance = true) :
    CustomFetch env opts =
      ⟨.ok (.failure (makeError env (.str e.message) none (env.durOf 0))),
        env.cache0, [.dispatch 0, .onRespCall]⟩ := by
  have hatt : ∀ ck cache, fetchAttempt env opts (initialContext env opts) ck 0 cache =
      .threw e [.dispatch 0, .onRespCall] := by
    intro ck cache
    simp [fetchAttempt, hfr0, hnotok, guardRejects, hg, hnr, errorTerminal, hor]
  rw [CustomFetch_nocache_hit env opts hreq hmiss, fetchLoop_succ, hatt]
  dsimp only
  rw [if_neg (by simp [hnet]), if_neg (by simp [habort])]
  simp [hinst]

/-!
Helper lemmas: the persistent-503 retry schedule.
-/

lemma errorCacheWrite_503 (env : Env) (ck : Option String) (r : FetchResult) (cache : Cache) :
    errorCacheWrite env ck 503 r cache = cache := by
  cases ck <;> simp [errorCacheWrite]

lemma loop503 (env : Env) (opts : FetchOpts) (ctx : RequestContext) (ck : Option String)
    (hv : opts.validateStatus = none) (hg : opts.errorGuard = none)
    (hr : opts.onResponse = none) (r : Nat → TransportResponse)
    (hfr : ∀ a, env.fetchResult a = .respond (r a))
    (hst : ∀ a, (r a).status = 503) (hok : ∀ a, (r a).ok = false) :
    ∀ n a msg cache trace, opts.retries = a + n →
      ∃ err : ErrorR,
        fetchLoop env opts ctx ck (n + 1) a msg cache trace =
          ⟨.ok (.failure err), cache, trace ++ pat503 opts.retryDelay a n⟩ ∧
        err.code = some 503 := by
  intro n
  induction n with
  | zero =>
    intro a msg cache trace hret
    have hterm : fetchAttempt env opts ctx ck a cache =
        errorTerminal env opts ctx ck 503
          (applyErrorTransformer opts.errorTransformer
            (mkErrorData (parseResponseBody env.jsonParse (r a))) 503) a cache := by
      have hnl : ¬(a < opts.retries) := by omega
      simp [fetchAttempt, hfr a, isOkOf, hv, hok a, hst a, guardRejects, hg, hnl]
    refine ⟨createErrorResponse env
      (applyErrorTransformer opts.errorTransformer
        (mkErrorData (parseResponseBody env.jsonParse (r a))) 503)
      (some 503) env.requestId (env.durOf a), ?_, rfl⟩
    simp only [fetchLoop, hterm, errorTerminal, hr, errorCacheWrite_503]
    rfl
  | succ n ih =>
    intro a msg cache trace hret
    have hlt : a < opts.retries := by omega
    have hatt : fetchAttempt env opts ctx ck a cache =
        .retry ((applyErrorTransformer opts.errorTransformer
            (mkErrorData (parseResponseBody env.jsonParse (r a))) 503).getField "message")
          (opts.retryDelay * 2 ^ a)
          [.dispatch a, .sleep (opts.retryDelay * 2 ^ a)] := by
      simp [fetchAttempt, hfr a, isOkOf, hv, hok a, hst a, guardRejects, hg, hlt, retriableStatus]
    obtain ⟨err, heq, hcode⟩ := ih (a + 1)
      ((applyErrorTransformer opts.errorTransformer
        (mkErrorData (parseResponseBody env.jsonParse (r a))) 503).getField "message")
      cache (trace ++ [.dispatch a, .sleep (opts.retryDelay * 2 ^ a)]) (by omega)
    refine ⟨err, ?_, hcode⟩
    rw [fetchLoop_succ, hatt]
    dsimp only
    rw [heq]
    simp [pat503, List.append_assoc]

lemma dispatchCount_pat503 (rd : Nat) : ∀ n a, dispatchCount (pat503 rd a n) = n + 1 := by
  intro n
  induction n with
  | zero => intro a; rfl
  | succ n ih =>
    intro a
    simp only [pat503, dispatchCount, List.countP_cons]
    have h2 := ih (a + 1)
    simp only [dispatchCount] at h2
    simp [h2]

lemma sleepsOf_pat503 (rd : Nat) : ∀ n a,
    sleepsOf (pat503 rd a n) = (List.range n).map (fun i => rd * 2 ^ (a + i)) := by
  intro n
  induction n with
  | zero => intro a; rfl
  | succ n ih =>
    intro a
    simp only [pat503, sleepsOf, List.filterMap_cons]
    have h2 := ih (a + 1)
    simp only [sleepsOf] at h2
    simp only [h2, List.range_succ_eq_map, List.map_cons, List.map_map]
    rw [Nat.add_zero]
    congr 1
    apply List.map_congr_left
    intro i _
    simp only [Function.comp_apply, Nat.succ_eq_add_one]
    congr 1
    congr 1
    omega

/-!
Claim theorems.
-/

/-- C1: evaluated at a cached GET to URL `u` with no body, the engine stores
its outcome under the key `GET:u:$` (the source's cache-key template contains
a stray `$` before the body segment), while `clearSpecificCache(u, "GET",
null)` deletes the key `GET:u:` — so it removes nothing and the stored entry
survives, contradicting the documented `method:url:body` key format and the
claimed removal. -/
theorem claim_C1 :
    (CustomFetch c1env c1opts).cache =
      [("GET:u:$", ⟨.success ⟨.str "ok", 200, 0, [], "rid", 0⟩, 0⟩)] ∧
    engineCacheKey c1env c1opts = "GET:u:$" ∧
    clearSpecificCache (CustomFetch c1env c1opts).cache "u" "GET" none =
      (CustomFetch c1env c1opts).cache ∧
    getCacheStats (clearSpecificCache (CustomFetch c1env c1opts).cache "u" "GET" none) =
      ⟨1, ["GET:u:$"]⟩ ∧
    ("GET" ++ ":" ++ "u" ++ ":" ++ "" : String) ≠ "GET:u:$" :=
  ⟨rfl, rfl, rfl, rfl, by decide⟩

/-- C2 counterexample: on the error path, a response interceptor that
substitutes a Success (`c2forged`) for the terminal 404 Failure does not
become the call's result — the engine discards the cross-variant
substitution and returns its own Failure. -/
theorem claim_C2_counterexample :
    (CustomFetch c2envE (c2optsE (.success c2forged))).result = .ok (.failure c2baseFailure) ∧
    (CustomFetch c2envE (c2optsE (.success c2forged))).result ≠ .ok (.success c2forged) := by
  refine ⟨rfl, ?_⟩
  intro h
  rw [show (CustomFetch c2envE (c2optsE (.success c2forged))).result
      = .ok (.failure c2baseFailure) from rfl] at h
  simp at h

/-- C2 (amended): the Outcome returned by the response interceptor becomes
the call's result only when it has the same variant as the engine's own
terminal Outcome: on the error path a returned Failure is adopted and a
returned Success is discarded, on the success path a returned Success is
adopted and a returned Failure is discarded. -/
theorem claim_C2 (r : FetchResult) :
    (CustomFetch c2envE (c2optsE r)).result =
      .ok (if r.isSuccess then .failure c2baseFailure else r) ∧
    (CustomFetch c2envS (c2optsS r)).result =
      .ok (if r.isSuccess then r else .success c2baseSuccess) := by
  cases r <;> exact ⟨rfl, rfl⟩

/-- C3 counterexample: a response interceptor that raises `c3err` on the
error path does not propagate an exception to the caller — the engine's
catch block converts it into a null-status Failure carrying the exception's
message. -/
theorem claim_C3_counterexample :
    (CustomFetch c3env c3opts).result =
      .ok (.failure ⟨.obj [("message", .str "boom")], none, 0, "rid", 0, none⟩) := rfl

/-- C3 (amended): an exception raised by the request interceptor is not
caught and propagates to the caller; an exception raised by the response
interceptor is caught by the dispatch loop's catch block and converted into
an Outcome (here: a Failure with null status and the exception's message,
for a non-abort, non-network-classified exception on a non-retriable error
status). -/
theorem claim_C3 :
    (∀ (env : Env) (opts : FetchOpts) (e : JsError),
      opts.onRequest = some (fun _ => Except.error e) →
      CustomFetch env opts = ⟨.error e, env.cache0, []⟩) ∧
    (∀ (env : Env) (opts : FetchOpts) (resp : TransportResponse) (e : JsError),
      opts.onRequest = none →
      (opts.cacheResponse = true → cacheGet env.cache0 (engineCacheKey env opts) = none) →
      env.fetchResult 0 = .respond resp →
      isOkOf opts.validateStatus resp = false →
      opts.errorGuard = none →
      retriableStatus resp.status = false →
      opts.onResponse = some (fun _ => .error e) →
      (e.isErrorInstance && e.name == "AbortError") = false →
      (e.isTypeError && strIncludes e.message "NetworkError") = false →
      e.isErrorInstance = true →
      CustomFetch env opts =
        ⟨.ok (.failure (makeError env (.str e.message) none (env.durOf 0))),
          env.cache0, [.dispatch 0, .onRespCall]⟩) :=
  ⟨fun env opts e h => by simp [CustomFetch, h],
   fun env opts resp e hreq hmiss hfr0 hnotok hg hnr hor habort hnet hinst =>
     onRespThrow_caught env opts resp e hreq hmiss hfr0 hnotok hg hnr hor habort hnet hinst⟩

/-- C3 witness: at the concrete instances, the onRequest throw escapes as
`.error c3err`, and the onResponse throw is converted into the Failure
`\x7bmessage: "boom"\x7d` with null status. -/
theorem claim_C3_witness :
    CustomFetch c3env c3optsReq = ⟨.error c3err, [], []⟩ ∧
    CustomFetch c3env c3opts =
      ⟨.ok (.failure ⟨.obj [("message", .str "boom")], none, 0, "rid", 0, none⟩),
        [], [.dispatch 0, .onRespCall]⟩ :=
  ⟨claim_C3.1 c3env c3optsReq c3err rfl,
   claim_C3.2 c3env c3opts c3resp c3err rfl (fun h => Bool.noConfusion h)
     rfl rfl rfl rfl rfl rfl rfl rfl⟩

/-- C4: an attempt that ends in an AbortError (the timeout-triggered
cancellation) terminates the call immediately with a Failure whose status is
408 and whose message is "Request timeout"; the dispatch loop performs no
further dispatch at any attempt index and with any retries remaining, and at
the engine level the whole call performs exactly one dispatch. -/
theorem claim_C4 :
    (∀ (env : Env) (opts : FetchOpts) (ctx : RequestContext) (ck : Option String)
       (fuel a : Nat) (msg : JSValue) (cache : Cache) (trace : List Event) (e : JsError),
      env.fetchResult a = .threw e → e.isErrorInstance = true → e.name = "AbortError" →
      fetchLoop env opts ctx ck (fuel + 1) a msg cache trace =
        ⟨.ok (.failure (makeError env (.str "Request timeout") (some 408) (env.durOf a))),
          cache, trace ++ [.dispatch a]⟩) ∧
    (∀ (env : Env) (opts : FetchOpts) (e : JsError),
      opts.onRequest = none → opts.cacheResponse = false →
      env.fetchResult 0 = .threw e → e.isErrorInstance = true → e.name = "AbortError" →
      CustomFetch env opts =
        ⟨.ok (.failure (makeError env (.str "Request timeout") (some 408) (env.durOf 0))),
          env.cache0, [.dispatch 0]⟩) := by
  constructor
  · intro env opts ctx ck fuel a msg cache trace e he hinst hname
    exact loopAbort env opts ctx ck fuel a msg cache trace e he hinst hname
  · intro env opts e hreq hcache he hinst hname
    simp only [CustomFetch, hreq, CustomFetchAfterIntercept, hcache, if_false]
    rw [loopAbort env opts _ none opts.retries 0 _ env.cache0 [] e he hinst hname]
    rfl

/-- C4 witness: with every dispatch aborting and 7 retries configured, the
call returns the 408 "Request timeout" Failure after exactly one dispatch. -/
theorem claim_C4_witness :
    c4env.fetchResult 0 = .threw c4err ∧
    CustomFetch c4env c4opts =
      ⟨.ok (.failure ⟨.obj [("message", .str "Request timeout")], some 408, 0, "rid", 0, none⟩),
        [], [.dispatch 0]⟩ :=
  ⟨rfl, claim_C4.2 c4env c4opts c4err rfl rfl rfl rfl rfl⟩

/-- C5: a call whose every dispatch settles as a 503 (with no status
predicate, error guard or response interceptor configured, no request
interceptor, and no live cache hit) issues exactly `retries + 1` dispatches,
sleeps `retryDelay * 2 ^ 0, ..., retryDelay * 2 ^ (retries - 1)` between
consecutive dispatches, and ends in a Failure with status 503, leaving the
cache unchanged. -/
theorem claim_C5 (env : Env) (opts : FetchOpts) (r : Nat → TransportResponse)
    (hreq : opts.onRequest = none) (hv : opts.validateStatus = none)
    (hg : opts.errorGuard = none) (hr : opts.onResponse = none)
    (hmiss : opts.cacheResponse = true →
      cacheGet env.cache0 (engineCacheKey env opts) = none)
    (hfr : ∀ a, env.fetchResult a = .respond (r a))
    (hst : ∀ a, (r a).status = 503) (hok : ∀ a, (r a).ok = false) :
    (∃ err : ErrorR,
      CustomFetch env opts =
        ⟨.ok (.failure err), env.cache0, pat503 opts.retryDelay 0 opts.retries⟩ ∧
      err.code = some 503) ∧
    dispatchCount (CustomFetch env opts).trace = opts.retries + 1 ∧
    sleepsOf (CustomFetch env opts).trace =
      (List.range opts.retries).map (fun i => opts.retryDelay * 2 ^ i) := by
  obtain ⟨err, heq, hcode⟩ := loop503 env opts (initialContext env opts)
    (if opts.cacheResponse then some (engineCacheKey env opts) else none)
    hv hg hr r hfr hst hok opts.retries 0 (.str "Maximum retry count reached") env.cache0 []
    (by omega)
  rw [CustomFetch_nocache_hit env opts hreq hmiss, heq]
  simp only [List.nil_append]
  refine ⟨⟨err, rfl, hcode⟩, ?_, ?_⟩
  · exact dispatchCount_pat503 opts.retryDelay opts.retries 0
  · rw [sleepsOf_pat503 opts.retryDelay opts.retries 0]
    apply List.map_congr_left
    intro i _
    rw [Nat.zero_add]

/-- C5 witness: with persistent 503s, `retries = 2` and `retryDelay = 5`, the
call issues 3 dispatches and sleeps 5 ms then 10 ms. -/
theorem claim_C5_witness :
    c5env.fetchResult 0 = .respond c5resp ∧
    dispatchCount (CustomFetch c5env c5opts).trace = 3 ∧
    sleepsOf (CustomFetch c5env c5opts).trace = [5, 10] := by
  have h := claim_C5 c5env c5opts (fun _ => c5resp) rfl rfl rfl rfl
    (fun hh => Bool.noConfusion hh) (fun _ => rfl) (fun _ => rfl) (fun _ => rfl)
  exact ⟨rfl, h.2.1, h.2.2⟩

/-- C6: for a call with caching enabled whose (post-assembly) cache key has a
stored entry, a live hit (age strictly below `cacheTime`) returns the stored
Outcome immediately with no dispatch, no sleep and no response-interceptor
invocation and leaves the cache unchanged, while a stale hit (age at least
`cacheTime`) behaves exactly as the same call started with that entry deleted
from the cache, and proceeds to a transport dispatch. -/
theorem claim_C6 (env : Env) (opts : FetchOpts) (item : CacheItem)
    (hreq : opts.onRequest = none) (hck : opts.cacheResponse = true)
    (hlook : cacheGet env.cache0 (engineCacheKey env opts) = some item) :
    ((env.probeNow - item.timestamp < opts.cacheTime) →
      CustomFetch env opts = ⟨.ok item.data, env.cache0, []⟩) ∧
    (¬(env.probeNow - item.timestamp < opts.cacheTime) →
      CustomFetch env opts =
        CustomFetch { env with cache0 := cacheDelete env.cache0 (engineCacheKey env opts) } opts ∧
      ∃ rest, (CustomFetch env opts).trace = Event.dispatch 0 :: rest) := by
  constructor
  · intro hlive
    rw [CustomFetch_probe env opts hreq hck, hlook]
    simp [hlive]
  · intro hstale
    have hL : CustomFetch env opts =
        fetchLoop env opts (initialContext env opts) (some (engineCacheKey env opts))
          (opts.retries + 1) 0 (.str "Maximum retry count reached")
          (cacheDelete env.cache0 (engineCacheKey env opts)) [] := by
      rw [CustomFetch_probe env opts hreq hck, hlook]
      simp [hstale]
    have hR : CustomFetch { env with cache0 := cacheDelete env.cache0 (engineCacheKey env opts) } opts =
        fetchLoop { env with cache0 := cacheDelete env.cache0 (engineCacheKey env opts) } opts
          (initialContext env opts) (some (engineCacheKey env opts))
          (opts.retries + 1) 0 (.str "Maximum retry count reached")
          (cacheDelete env.cache0 (engineCacheKey env opts)) [] := by
      rw [CustomFetch_probe _ opts hreq hck]
      rw [show engineCacheKey { env with cache0 := cacheDelete env.cache0 (engineCacheKey env opts) } opts
          = engineCacheKey env opts from rfl]
      rw [show ({ env with cache0 := cacheDelete env.cache0 (engineCacheKey env opts) } : Env).cache0
          = cacheDelete env.cache0 (engineCacheKey env opts) from rfl]
      rw [cacheGet_delete]
      rfl
    constructor
    · rw [hL, hR]
      exact (fetchLoop_cache0_irrel env (cacheDelete env.cache0 (engineCacheKey env opts)) opts
        (initialContext env opts) (some (engineCacheKey env opts)) (opts.retries + 1) 0
        (.str "Maximum retry count reached") (cacheDelete env.cache0 (engineCacheKey env opts)) []).symm
    · rw [hL]
      obtain ⟨rest, hx⟩ := fetchLoop_head env opts (initialContext env opts)
        (some (engineCacheKey env opts)) opts.retries 0 (.str "Maximum retry count reached")
        (cacheDelete env.cache0 (engineCacheKey env opts)) []
      exact ⟨rest, by rw [hx]; rfl⟩

/-- C6 witness: a live cached entry under `GET:u:$` is returned verbatim with
an empty event trace and an unchanged cache, without consulting the (aborting)
transport. -/
theorem claim_C6_witness :
    cacheGet c6env.cache0 (engineCacheKey c6env c6opts) = some c6item ∧
    CustomFetch c6env c6opts = ⟨.ok c6item.data, c6env.cache0, []⟩ :=
  ⟨rfl, (claim_C6 c6env c6opts c6item rfl rfl rfl).1 (by decide)⟩

/-- C7: a status-validated non-binary response whose parsed body a configured
response guard rejects yields a Failure with message "Response validation
failed" carrying the original HTTP status (even a success code), with no
cache write and no response-interceptor invocation; and whenever a response
guard is present the response transformer is never consulted — the parsing
result is independent of the transformer, and a passing guard returns the
raw parsed shape as-is. -/
theorem claim_C7 :
    (∀ (env : Env) (opts : FetchOpts) (resp : TransportResponse) (g : JSValue → Bool),
      opts.onRequest = none →
      (opts.cacheResponse = true → cacheGet env.cache0 (engineCacheKey env opts) = none) →
      env.fetchResult 0 = .respond resp →
      isOkOf opts.validateStatus resp = true →
      isBinaryContentType (resp.contentType.getD "") = false →
      opts.responseGuard = some g →
      g (parseResponseBody env.jsonParse resp) = false →
      CustomFetch env opts =
        ⟨.ok (.failure (createErrorResponse env
            (.obj [("message", .str "Response validation failed")])
            (some resp.status) env.requestId (env.durOf 0))),
          env.cache0, [.dispatch 0]⟩) ∧
    (∀ (g : JSValue → Bool) (t t' : Option (JSValue → JSValue)) (raw : JSValue),
      computeParsed (some g) t raw = computeParsed (some g) t' raw) ∧
    (∀ (g : JSValue → Bool) (t : Option (JSValue → JSValue)) (raw : JSValue),
      g raw = true → computeParsed (some g) t raw = .ok raw) := by
  refine ⟨?_, ?_, ?_⟩
  · intro env opts resp g hreq hmiss hfr0 hok hbin hguard hrej
    exact respGuardReject_run env opts resp g hreq hmiss hfr0 hok hbin hguard hrej
  · intro g t t' raw
    rfl
  · intro g t raw h
    simp [computeParsed, h]

/-- C7 witness: a rejecting guard on a 200 response yields the "Response
validation failed" Failure at status 200; a present guard makes the parse
result transformer-independent, and a passing guard keeps the raw shape. -/
theorem claim_C7_witness :
    CustomFetch c7env c7opts =
      ⟨.ok (.failure ⟨.obj [("message", .str "Response validation failed")],
          some 200, 0, "rid", 0, none⟩), [], [.dispatch 0]⟩ ∧
    computeParsed (some (fun _ => true)) (some (fun _ => .str "t")) (.str "raw") =
      computeParsed (some (fun _ => true)) none (.str "raw") ∧
    computeParsed (some (fun _ => true)) (some (fun _ => .str "t")) (.str "raw") =
      .ok (.str "raw") :=
  ⟨claim_C7.1 c7env c7opts c7resp (fun _ => false) rfl (fun h => Bool.noConfusion h)
      rfl rfl rfl rfl rfl,
   claim_C7.2.1 (fun _ => true) (some (fun _ => .str "t")) none (.str "raw"),
   claim_C7.2.2 (fun _ => true) (some (fun _ => .str "t")) (.str "raw") rfl⟩

/-- C8: serializing a parameter map with no null values (keys and values as
UTF-8 byte strings, each percent-encoded independently, list values emitted
one `key=value` pair per element in order) and then decoding the received
query string — splitting on `&`, splitting each pair at the first `=`, and
percent-decoding — yields back exactly the original ordered key-to-value(s)
content of the map. -/
theorem claim_C8 (params : List (List Nat × PValB))
    (hnull : ∀ kv ∈ params, kv.2 ≠ PValB.null)
    (hbytes : ∀ kv ∈ flattenParamsB params, bytesOk kv.1 ∧ bytesOk kv.2) :
    parseQueryB (serializeParamsB params) = flattenParamsB params := by
  have hkeep := hnull
  clear hkeep
  unfold serializeParamsB
  rw [parts_flatten]
  cases hfl : flattenParamsB params with
  | nil => simp [parseQueryB, joinSep]
  | cons kv fl' =>
    rw [hfl] at hbytes
    have hqne : joinSep [38] ((kv :: fl').map (fun kv => mkPairPart kv.1 kv.2)) ≠ [] := by
      rw [List.map_cons]
      exact joinSep_cons_ne_nil _ _ _ (mkPairPart_ne_nil _ _)
    unfold parseQueryB
    rw [if_neg hqne]
    rw [splitSep_joinSep _ (by simp) (by
      intro p hp
      obtain ⟨kv', _, rfl⟩ := List.mem_map.1 hp
      exact mkPairPart_no_amp _ _)]
    rw [List.map_map]
    exact map_parse_eq _ hbytes

/-- C8 witness: a map with a scalar value containing raw `&` (38) and `=`
(61) bytes and a two-element list value round-trips to its exact ordered
content. -/
theorem claim_C8_witness :
    (∀ kv ∈ c8params, kv.2 ≠ PValB.null) ∧
    parseQueryB (serializeParamsB c8params) = flattenParamsB c8params :=
  ⟨by decide, claim_C8 c8params (by decide) (by simp only [bytesOk]; decide)⟩

/-- C9: for a non-empty parameter map whose values are all null/undefined,
`buildUrl` does not return the base URL unchanged: it appends a bare
separator with an empty query string — `?` normally, `&` when the base URL
already contains `?`. -/
theorem claim_C9 (enc : String → String) (baseUrl : String)
    (params : List (String × ParamVal))
    (hne : params ≠ []) (h : ∀ kv ∈ params, kv.2 = ParamVal.null) :
    buildUrl enc baseUrl (some params) =
      baseUrl ++ (if strIncludes baseUrl "?" then "&" else "?") ∧
    buildUrl enc baseUrl (some params) ≠ baseUrl := by
  have hmain : buildUrl enc baseUrl (some params) =
      baseUrl ++ (if strIncludes baseUrl "?" then "&" else "?") := by
    simp only [buildUrl]
    rw [serializeParams_all_null enc params h, if_neg (by simp [List.isEmpty_iff, hne])]
    rw [String.append_empty]
  refine ⟨hmain, ?_⟩
  rw [hmain]
  intro hcontra
  have hlen := congrArg String.length hcontra
  rw [String.length_append] at hlen
  split at hlen
  · simp at hlen
    exact absurd hlen (by decide)
  · simp at hlen
    exact absurd hlen (by decide)

/-- C9 witness: the all-null singleton map appends a bare `?` to `api`, and a
bare `&` to `api?x=1`. -/
theorem claim_C9_witness :
    ([("k", ParamVal.null)] : List (String × ParamVal)) ≠ [] ∧
    buildUrl (fun s => s) "api" (some [("k", ParamVal.null)]) = "api?" ∧
    buildUrl (fun s => s) "api?x=1" (some [("k", ParamVal.null)]) = "api?x=1&" :=
  ⟨List.cons_ne_nil _ _,
   ((claim_C9 (fun s => s) "api" [("k", ParamVal.null)] (List.cons_ne_nil _ _)
     (fun kv hkv => by rw [List.mem_singleton.1 hkv])).1).trans (by decide),
   ((claim_C9 (fun s => s) "api?x=1" [("k", ParamVal.null)] (List.cons_ne_nil _ _)
     (fun kv hkv => by rw [List.mem_singleton.1 hkv])).1).trans (by decide)⟩

/-- C10: a call that terminates via an error-guard rejection, a
response-guard rejection, or a terminal transport-level exception returns
the corresponding Failure directly: the final cache equals the starting
cache (no entry is written even with caching enabled, provided the probe
missed) and the trace is exactly one dispatch — in particular the response
interceptor is never invoked even when configured. -/
theorem claim_C10 :
    (∀ (env : Env) (opts : FetchOpts) (resp : TransportResponse) (g : JSValue → Bool),
      opts.onRequest = none →
      (opts.cacheResponse = true → cacheGet env.cache0 (engineCacheKey env opts) = none) →
      env.fetchResult 0 = .respond resp →
      isOkOf opts.validateStatus resp = false →
      opts.errorGuard = some g →
      g (mkErrorData (parseResponseBody env.jsonParse resp)) = false →
      CustomFetch env opts =
        ⟨.ok (.failure (createErrorResponse env
            (.obj [("message", .str "Error validation failed")])
            (some resp.status) env.requestId (env.durOf 0))),
          env.cache0, [.dispatch 0]⟩) ∧
    (∀ (env : Env) (opts : FetchOpts) (resp : TransportResponse) (g : JSValue → Bool),
      opts.onRequest = none →
      (opts.cacheResponse = true → cacheGet env.cache0 (engineCacheKey env opts) = none) →
      env.fetchResult 0 = .respond resp →
      isOkOf opts.validateStatus resp = true →
      isBinaryContentType (resp.contentType.getD "") = false →
      opts.responseGuard = some g →
      g (parseResponseBody env.jsonParse resp) = false →
      CustomFetch env opts =
        ⟨.ok (.failure (createErrorResponse env
            (.obj [("message", .str "Response validation failed")])
            (some resp.status) env.requestId (env.durOf 0))),
          env.cache0, [.dispatch 0]⟩) ∧
    (∀ (env : Env) (opts : FetchOpts) (e : JsError),
      opts.onRequest = none →
      (opts.cacheResponse = true → cacheGet env.cache0 (engineCacheKey env opts) = none) →
      env.fetchResult 0 = .threw e →
      ((e.isErrorInstance = true ∧ e.name = "AbortError") ∨
        (e.isTypeError && strIncludes e.message "NetworkError") = false ∨
        opts.retries = 0) →
      ∃ err : ErrorR,
        CustomFetch env opts = ⟨.ok (.failure err), env.cache0, [.dispatch 0]⟩) := by
  refine ⟨?_, ?_, ?_⟩
  · intro env opts resp g hreq hmiss hfr0 hnotok hg hrej
    exact errGuardReject_run env opts resp g hreq hmiss hfr0 hnotok hg hrej
  · intro env opts resp g hreq hmiss hfr0 hok hbin hguard hrej
    exact respGuardReject_run env opts resp g hreq hmiss hfr0 hok hbin hguard hrej
  · intro env opts e hreq hmiss he0 hterm
    exact catchTerminal_run env opts e hreq hmiss he0 hterm

/-- C10 witness: at concrete instances — a retriable 503 rejected by the
error guard (with 5 retries and an interceptor configured), a 201 rejected
by the response guard next to an interceptor, and an unclassified thrown
value with retries remaining — the call ends after one dispatch with an
unchanged cache and no interceptor event. -/
theorem claim_C10_witness :
    CustomFetch c10aenv c10aopts =
      ⟨.ok (.failure ⟨.obj [("message", .str "Error validation failed")],
          some 503, 0, "rid", 0, none⟩), [], [.dispatch 0]⟩ ∧
    CustomFetch c10benv c10bopts =
      ⟨.ok (.failure ⟨.obj [("message", .str "Response validation failed")],
          some 201, 0, "rid", 0, none⟩), [], [.dispatch 0]⟩ ∧
    (∃ err : ErrorR,
      CustomFetch c10cenv c10copts = ⟨.ok (.failure err), [], [.dispatch 0]⟩) :=
  ⟨claim_C10.1 c10aenv c10aopts c10aresp (fun _ => false) rfl
      (fun h => Bool.noConfusion h) rfl rfl rfl rfl,
   claim_C10.2.1 c10benv c10bopts c10bresp (fun _ => false) rfl
      (fun h => Bool.noConfusion h) rfl rfl rfl rfl rfl,
   claim_C10.2.2 c10cenv c10copts c10cerr rfl (fun h => Bool.noConfusion h) rfl
      (Or.inr (Or.inl rfl))⟩
